import Mathlib

/-!
Shallow embedding of the `sqlquerybob` Go query-builder package
(`sqlquerybob.go` plus its error definitions file) and proofs about the
claims of its specification.

Go strings are modelled as Lean `String`s (logically a list of characters),
Go slices as Lean lists, and Go's `interface{}` bound values as an arbitrary
type parameter `α`.  The mutable `*Builder` receiver is modelled by explicit
state passing: every generator that can advance the shared placeholder
counter takes a `Builder α` and returns the updated one.  Go's `(string,
error)` return pairs are modelled as `String × Option GoErr` (`none` = nil
error), and a Go runtime panic (reachable through `strings.Repeat` with a
negative count) is modelled by the `Res.panicked` constructor, since a panic
aborts instead of returning.
-/

set_option autoImplicit false
set_option maxRecDepth 8192

namespace SqlQueryBob

/-- The Go `database` enumeration of supported engines; the Go zero value is
`MYSQL`. -/
inductive Database where
  | mysql
  | sqlite
  | postgres
  | oracle
  deriving DecidableEq

/-- The Go `queryType` enumeration; the Go zero value is `selectQry`. -/
inductive QueryType where
  | selectQry
  | insertQry
  | updateQry
  | deleteQry
  deriving DecidableEq

/-- The Go `sortOrder` enumeration. -/
inductive SortOrder where
  | ascending
  | descending
  deriving DecidableEq

/-- Result of a Go computation that can end in a runtime panic instead of
returning: `ok` carries the returned value, `panicked` the panic message. -/
inductive Res (β : Type) where
  | ok : β → Res β
  | panicked : String → Res β
  deriving DecidableEq

/-- Splits a character list at every occurrence of `sep`.  This mirrors Go
`strings.Split` for a one-character separator: the result always has one
more element than there are occurrences of `sep`. -/
def splitChars (sep : Char) : List Char → List (List Char)
  | [] => [[]]
  | c :: rest =>
    let r := splitChars sep rest
    if c = sep then [] :: r else (c :: r.headD []) :: r.tail

/-- Go `strings.Split(s, sep)` for a one-character separator, the only way
the repository uses it (separators `"."` and `"/"`). -/
def stringsSplit (sep : Char) (s : String) : List String :=
  (splitChars sep s.toList).map (fun cs => String.mk cs)

/-- Go `strings.Repeat(s, count)`: returns `count` copies of `s`
concatenated, and panics when `count` is negative. -/
def stringsRepeat (s : String) (count : Int) : Res String :=
  if count < 0 then .panicked "strings: negative Repeat count"
  else .ok (String.join (List.replicate count.toNat s))

/-- Go `strings.ToUpper`, restricted to the ASCII mapping: the repository
only ever uppercases SQL operator strings. -/
def stringsToUpper (s : String) : String :=
  String.mk (s.toList.map Char.toUpper)

/-- The error values of the package (its errors source file): the two
constructor-built typed errors keep their payload fields together with the
formatted message, the two `errors.New` values are plain constants. -/
inductive GoErr where
  | badColumnsValuesCombo (columnCount valueCount : Nat) (msg : String)
  | invalidSqlOperator (operator : String) (msg : String)
  | firstCriterionIsOr
  | dbEngineDoesNotSupportReturning
  deriving DecidableEq

/-- Go `NewBadColumnsValuesComboError`: carries both counts and the message
`"columns count (%d) must be equal to values count (%d)"`. -/
def newBadColumnsValuesComboError (columnCount valueCount : Nat) : GoErr :=
  .badColumnsValuesCombo columnCount valueCount
    ("columns count (" ++ toString columnCount ++
      ") must be equal to values count (" ++ toString valueCount ++ ")")

/-- Go `NewInvalidOperatorError`: carries the offending operator and the
message `"operator '%s' is an invalid SQL operator"`. -/
def newInvalidOperatorError (operator : String) : GoErr :=
  .invalidSqlOperator operator
    ("operator \x27" ++ operator ++ "\x27 is an invalid SQL operator")

/-- One element of the Go `joinTables` slice of anonymous structs. -/
structure JoinTable where
  joinType : String
  table : String
  column : String
  fkey : String
  deriving DecidableEq

/-- One element of the Go `criteria` slice of anonymous structs; `α` is the
type standing in for Go `interface{}` values. -/
structure Criterion (α : Type) where
  column : String
  operator : String
  values : List α
  or : Bool
  deriving DecidableEq

/-- One element of the Go `orderBy` slice of anonymous structs. -/
structure OrderSpec where
  column : String
  direction : SortOrder
  deriving DecidableEq

/-- The Go `Builder` struct.  Field defaults are the Go zero values, so a
structure literal setting only some fields models Go struct literals such as
the ones in `NewSelect`/`NewInsert`/`NewUpdate`/`NewDelete`.
`placeholderCount` is a Go `int` that starts at 0 and is only ever
incremented, hence a `Nat`. -/
structure Builder (α : Type) where
  db : Database := .mysql
  placeholderCount : Nat := 0
  queryType : QueryType := .selectQry
  table : String := ""
  joinTables : List JoinTable := []
  columns : List String := []
  returningColumns : List String := []
  values : List α := []
  returnValues : List α := []
  criteria : List (Criterion α) := []
  orderBy : List OrderSpec := []
  limit : Nat := 0
  offset : Nat := 0
  deriving DecidableEq

variable {α : Type}

/-- Go `NewSelect`. -/
def NewSelect (tableName : String) : Builder α :=
  { queryType := .selectQry, table := tableName }

/-- Go `NewInsert`. -/
def NewInsert (tableName : String) : Builder α :=
  { queryType := .insertQry, table := tableName }

/-- Go `NewUpdate`. -/
def NewUpdate (tableName : String) : Builder α :=
  { queryType := .updateQry, table := tableName }

/-- Go `NewDelete`. -/
def NewDelete (tableName : String) : Builder α :=
  { queryType := .deleteQry, table := tableName }

/-- Go `ForDatabase`. -/
def ForDatabase (qb : Builder α) (db : Database) : Builder α :=
  { qb with db := db }

/-- Go `ForMySQL`. -/
def ForMySQL (qb : Builder α) : Builder α := ForDatabase qb .mysql

/-- Go `ForPostgres`. -/
def ForPostgres (qb : Builder α) : Builder α := ForDatabase qb .postgres

/-- Go `ForOracle`. -/
def ForOracle (qb : Builder α) : Builder α := ForDatabase qb .oracle

/-- Go `ForSQLite`. -/
def ForSQLite (qb : Builder α) : Builder α := ForDatabase qb .sqlite

/-- One iteration of the loop body of Go `Select`: splits the name on `"."`,
appends the table-qualified name when the split has one part and the
verbatim name when it has two parts; any other split length appends
nothing. -/
def selectOne (qb : Builder α) (column : String) : Builder α :=
  let tableColumn := stringsSplit '.' column
  let qb :=
    if tableColumn.length = 1 then
      { qb with columns := qb.columns ++ [qb.table ++ "." ++ column] }
    else qb
  let qb :=
    if tableColumn.length = 2 then
      { qb with columns := qb.columns ++ [column] }
    else qb
  qb

/-- Go `Select` (variadic): the loop over the supplied column names. -/
def Select (qb : Builder α) (columns : List String) : Builder α :=
  columns.foldl selectOne qb

/-- One iteration of the loop body of Go `Returning`; same qualification
rule as `selectOne`, targeting `returningColumns`. -/
def returningOne (qb : Builder α) (column : String) : Builder α :=
  let tableColumn := stringsSplit '.' column
  let qb :=
    if tableColumn.length = 1 then
      { qb with returningColumns := qb.returningColumns ++ [qb.table ++ "." ++ column] }
    else qb
  let qb :=
    if tableColumn.length = 2 then
      { qb with returningColumns := qb.returningColumns ++ [column] }
    else qb
  qb

/-- Go `Returning` (variadic): the loop over the supplied column names. -/
def Returning (qb : Builder α) (columns : List String) : Builder α :=
  columns.foldl returningOne qb

/-- Go `Limit`. -/
def Limit (qb : Builder α) (limit offset : Nat) : Builder α :=
  { qb with limit := limit, offset := offset }

/-- Go `Set`. -/
def Set (qb : Builder α) (columns : List String) : Builder α :=
  { qb with columns := qb.columns ++ columns }

/-- Go `To`. -/
def To (qb : Builder α) (values : List α) : Builder α :=
  { qb with values := qb.values ++ values }

/-- Go `Into`: routes to `values` for SELECT builders and to `returnValues`
otherwise. -/
def Into (qb : Builder α) (values : List α) : Builder α :=
  if qb.queryType = .selectQry then { qb with values := qb.values ++ values }
  else { qb with returnValues := qb.returnValues ++ values }

/-- Go `Join`. -/
def Join (qb : Builder α) (joinType table column fkey : String) : Builder α :=
  { qb with joinTables := qb.joinTables ++ [⟨joinType, table, column, fkey⟩] }

/-- Go `Where`: stores the criterion with the operator uppercased and the
`or` flag false. -/
def Where (qb : Builder α) (column operator : String) (values : List α) : Builder α :=
  { qb with criteria := qb.criteria ++ [⟨column, stringsToUpper operator, values, false⟩] }

/-- Go `OrWhere`: stores the criterion with the operator uppercased and the
`or` flag true. -/
def OrWhere (qb : Builder α) (column operator : String) (values : List α) : Builder α :=
  { qb with criteria := qb.criteria ++ [⟨column, stringsToUpper operator, values, true⟩] }

/-- Go `OrderBy`. -/
def OrderBy (qb : Builder α) (column : String) : Builder α :=
  { qb with orderBy := qb.orderBy ++ [⟨column, .ascending⟩] }

/-- Go `OrderByDescending`. -/
def OrderByDescending (qb : Builder α) (column : String) : Builder α :=
  { qb with orderBy := qb.orderBy ++ [⟨column, .descending⟩] }

/-- Go `Values` accessor. -/
def Values (qb : Builder α) : List α := qb.values

/-- Go `ReturningValues` accessor. -/
def ReturningValues (qb : Builder α) : List α := qb.returnValues

/-- Go `Criteria` accessor: concatenates the values of all criteria in
order. -/
def Criteria (qb : Builder α) : List α :=
  qb.criteria.foldl (fun acc c => acc ++ c.values) []

/-- Go `addPlaceholder`: increments the shared counter, then renders the
token for the current dialect (`$<n>` for Postgres, `:<n>` for Oracle, bare
`?` otherwise). -/
def addPlaceholder (qb : Builder α) : Builder α × String :=
  let qb := { qb with placeholderCount := qb.placeholderCount + 1 }
  (qb,
    match qb.db with
    | .postgres => "$" ++ toString qb.placeholderCount
    | .oracle => ":" ++ toString qb.placeholderCount
    | _ => "?")

/-- The Go `validOperators` constant. -/
def validOperators : String := "=/>/</>=/<=/<>/IN/BETWEEN/LIKE"

/-- Go `operatorIsValid`: linear search over `validOperators` split on
`"/"` (the receiver is unused in the Go method). -/
def operatorIsValid (operator : String) : Bool :=
  (stringsSplit '/' validOperators).any (fun o => operator == o)

/-- The comma-joining column loops of the SELECT, INSERT and RETURNING
clause generators: each column is appended, followed by a comma unless it is
the last one. -/
def commaJoin : List String → String
  | [] => ""
  | [c] => c
  | c :: c2 :: rest => c ++ "," ++ commaJoin (c2 :: rest)

/-- The placeholder loop of Go `generateInsertClause`: one `addPlaceholder`
call per value, comma-separated; only the number of values matters to the
loop body. -/
def placeholdersJoin (qb : Builder α) : Nat → Builder α × String
  | 0 => (qb, "")
  | 1 =>
    let (qb, p) := addPlaceholder qb
    (qb, p)
  | n + 2 =>
    let (qb, p) := addPlaceholder qb
    let (qb2, s) := placeholdersJoin qb (n + 1)
    (qb2, p ++ "," ++ s)

/-- The column/placeholder loop of Go `generateUpdateClause`:
`<column>=<placeholder>` pairs, comma-separated. -/
def setJoin (qb : Builder α) : List String → Builder α × String
  | [] => (qb, "")
  | [c] =>
    let (qb, p) := addPlaceholder qb
    (qb, c ++ "=" ++ p)
  | c :: c2 :: rest =>
    let (qb, p) := addPlaceholder qb
    let (qb2, s) := setJoin qb (c2 :: rest)
    (qb2, c ++ "=" ++ p ++ "," ++ s)

/-- Go `generateSelectClause`: arity check, then `SELECT ` followed by the
comma-joined columns. -/
def generateSelectClause (qb : Builder α) : String × Option GoErr :=
  if qb.columns.length ≠ qb.values.length then
    ("", some (newBadColumnsValuesComboError qb.columns.length qb.values.length))
  else
    ("SELECT " ++ commaJoin qb.columns, none)

/-- Go `generateReturningClause`: empty when no returning columns, the
Unsupported-Returning error on non-Postgres/Oracle dialects, the arity error
on count mismatch, else ` RETURNING ` followed by the comma-joined
columns. -/
def generateReturningClause (qb : Builder α) : String × Option GoErr :=
  if qb.returningColumns.length = 0 then ("", none)
  else if qb.db ≠ .postgres ∧ qb.db ≠ .oracle then
    ("", some .dbEngineDoesNotSupportReturning)
  else if qb.returningColumns.length ≠ qb.returnValues.length then
    ("", some (newBadColumnsValuesComboError qb.returningColumns.length qb.returnValues.length))
  else
    (" RETURNING " ++ commaJoin qb.returningColumns, none)

/-- The join-rendering loop of Go `generateFromAndJoinClause`. -/
def joinsText : List JoinTable → String
  | [] => ""
  | j :: rest =>
    " " ++ j.joinType ++ " JOIN " ++ j.table ++ " ON " ++ j.column ++ "=" ++ j.fkey ++
      joinsText rest

/-- Go `generateFromAndJoinClause`: ` FROM <table>` followed by one segment
per join spec. -/
def generateFromAndJoinClause (qb : Builder α) : String :=
  " FROM " ++ qb.table ++ joinsText qb.joinTables

/-- The per-criterion rendering of the `switch` at the end of the loop body
of Go `generateWhereClause` (lines 427-441): the column, a space before
word operators, the operator, then the operator-specific placeholder text.
In the `IN` arm Go evaluates `strings.Repeat(","+qb.addPlaceholder(),
len(criterion.values)-1)`: the repeat argument calls `addPlaceholder` once
(so the counter advances by exactly two for any `IN` criterion) and
`strings.Repeat` panics when the criterion has zero values. -/
def critBody (qb : Builder α) (criterion : Criterion α) : Res (Builder α × String) :=
  let s := criterion.column
  let s :=
    if criterion.operator = "BETWEEN" ∨ criterion.operator = "IN" ∨ criterion.operator = "LIKE"
    then s ++ " " else s
  let s := s ++ criterion.operator
  if criterion.operator = "LIKE" then
    let (qb, p) := addPlaceholder qb
    .ok (qb, s ++ " " ++ p)
  else if criterion.operator = "BETWEEN" then
    let (qb, p1) := addPlaceholder qb
    let (qb2, p2) := addPlaceholder qb
    .ok (qb2, s ++ " " ++ p1 ++ " AND " ++ p2)
  else if criterion.operator = "IN" then
    let (qb, p1) := addPlaceholder qb
    let (qb2, p2) := addPlaceholder qb
    match stringsRepeat ("," ++ p2) ((criterion.values.length : Int) - 1) with
    | .panicked m => .panicked m
    | .ok rep => .ok (qb2, s ++ " (" ++ p1 ++ rep ++ ")")
  else
    let (qb, p) := addPlaceholder qb
    .ok (qb, s ++ p)

/-- The indexed loop of Go `generateWhereClause`: `ci` is the running index,
`total` the length of the criteria slice being ranged over, `qry` the
accumulated clause text.  Error returns discard the accumulated text and
return the empty string with the error, exactly as the Go `return "", err`
statements do. -/
def whereLoop (qb : Builder α) (crits : List (Criterion α)) (ci total : Nat) (qry : String) :
    Res (Builder α × String × Option GoErr) :=
  match crits with
  | [] => .ok (qb, qry, none)
  | criterion :: rest =>
    if ci = 0 ∧ criterion.or then .ok (qb, "", some .firstCriterionIsOr)
    else
      let qry :=
        if ci ≠ 0 ∧ ci < total then
          qry ++ (if criterion.or then " OR " else " AND ")
        else qry
      if !operatorIsValid criterion.operator then
        .ok (qb, "", some (newInvalidOperatorError criterion.operator))
      else
        match critBody qb criterion with
        | .panicked m => .panicked m
        | .ok (qb, s) => whereLoop qb rest (ci + 1) total (qry ++ s)

/-- Specification-side rendering of the criteria after the first one of a
WHERE clause: every such criterion contributes its combinator token (` OR `
or ` AND ` according to its `or` flag) followed by its `critBody` text,
threading the placeholder state from left to right. -/
def whereTailChain (qb : Builder α) : List (Criterion α) → Res (Builder α × String)
  | [] => .ok (qb, "")
  | c :: rest =>
    match critBody qb c with
    | .panicked m => .panicked m
    | .ok (qb1, s) =>
      match whereTailChain qb1 rest with
      | .panicked m => .panicked m
      | .ok (qb2, s2) => .ok (qb2, (if c.or then " OR " else " AND ") ++ s ++ s2)

/-- Go `generateWhereClause`: empty on no criteria, else the loop starting
from `" WHERE "`. -/
def generateWhereClause (qb : Builder α) : Res (Builder α × String × Option GoErr) :=
  if qb.criteria.length = 0 then .ok (qb, "", none)
  else whereLoop qb qb.criteria 0 qb.criteria.length " WHERE "

/-- The rendering loop of Go `generateOrderByClause`: column plus ` DESC`
or ` ASC`, with a comma after every element but the last. -/
def orderJoin : List OrderSpec → String
  | [] => ""
  | [o] => o.column ++ (if o.direction = .descending then " DESC" else " ASC")
  | o :: o2 :: rest =>
    o.column ++ (if o.direction = .descending then " DESC" else " ASC") ++ "," ++
      orderJoin (o2 :: rest)

/-- Go `generateOrderByClause`. -/
def generateOrderByClause (qb : Builder α) : String :=
  if qb.orderBy.length = 0 then "" else " ORDER BY " ++ orderJoin qb.orderBy

/-- Go `generateLimitClause`: empty when `limit` is 0, else ` LIMIT <limit>`
plus `,<offset>` when `offset` is positive. -/
def generateLimitClause (qb : Builder α) : String :=
  if qb.limit = 0 then ""
  else " LIMIT " ++ toString qb.limit ++
    (if qb.offset > 0 then "," ++ toString qb.offset else "")

/-- Go `generateInsertClause`: arity check, then
`INSERT INTO <table> (<cols>) VALUES (<placeholders>)`. -/
def generateInsertClause (qb : Builder α) : Builder α × String × Option GoErr :=
  if qb.columns.length ≠ qb.values.length then
    (qb, "", some (newBadColumnsValuesComboError qb.columns.length qb.values.length))
  else
    let (qb2, phs) := placeholdersJoin qb qb.values.length
    (qb2, "INSERT INTO " ++ qb.table ++ " (" ++ commaJoin qb.columns ++ ") VALUES (" ++
      phs ++ ")", none)

/-- Go `generateUpdateClause`: arity check, then
`UPDATE <table> SET <col>=<placeholder>,...`. -/
def generateUpdateClause (qb : Builder α) : Builder α × String × Option GoErr :=
  if qb.columns.length ≠ qb.values.length then
    (qb, "", some (newBadColumnsValuesComboError qb.columns.length qb.values.length))
  else
    let (qb2, s) := setJoin qb qb.columns
    (qb2, "UPDATE " ++ qb.table ++ " SET " ++ s, none)

/-- Go `generateDeleteClause`. -/
def generateDeleteClause : String := "DELETE"

/-- Go `generateSelectQry`: projection, source+joins, filter, order-by,
pagination; every error is returned with the empty string. -/
def generateSelectQry (qb : Builder α) : Res (Builder α × String × Option GoErr) :=
  match generateSelectClause qb with
  | (_, some e) => .ok (qb, "", some e)
  | (qry, none) =>
    let qry := qry ++ generateFromAndJoinClause qb
    match generateWhereClause qb with
    | .panicked m => .panicked m
    | .ok (qb, _, some e) => .ok (qb, "", some e)
    | .ok (qb, whereClause, none) =>
      .ok (qb, qry ++ whereClause ++ generateOrderByClause qb ++ generateLimitClause qb, none)

/-- Go `generateDeleteQry`: literal DELETE, source+joins, filter,
result-projection. -/
def generateDeleteQry (qb : Builder α) : Res (Builder α × String × Option GoErr) :=
  let qry := generateDeleteClause ++ generateFromAndJoinClause qb
  match generateWhereClause qb with
  | .panicked m => .panicked m
  | .ok (qb, _, some e) => .ok (qb, "", some e)
  | .ok (qb, whereClause, none) =>
    match generateReturningClause qb with
    | (_, some e) => .ok (qb, "", some e)
    | (returningClause, none) => .ok (qb, qry ++ whereClause ++ returningClause, none)

/-- Go `generateUpdateQry`: mutation, filter, result-projection. -/
def generateUpdateQry (qb : Builder α) : Res (Builder α × String × Option GoErr) :=
  match generateUpdateClause qb with
  | (qb, _, some e) => .ok (qb, "", some e)
  | (qb, qry, none) =>
    match generateWhereClause qb with
    | .panicked m => .panicked m
    | .ok (qb, _, some e) => .ok (qb, "", some e)
    | .ok (qb, whereClause, none) =>
      match generateReturningClause qb with
      | (_, some e) => .ok (qb, "", some e)
      | (returningClause, none) => .ok (qb, qry ++ whereClause ++ returningClause, none)

/-- Go `generateInsertQry`: mutation, result-projection. -/
def generateInsertQry (qb : Builder α) : Res (Builder α × String × Option GoErr) :=
  match generateInsertClause qb with
  | (qb, _, some e) => .ok (qb, "", some e)
  | (qb, qry, none) =>
    match generateReturningClause qb with
    | (_, some e) => .ok (qb, "", some e)
    | (returningClause, none) => .ok (qb, qry ++ returningClause, none)

/-- Go `GenerateQuery`: dispatch on the statement kind. -/
def GenerateQuery (qb : Builder α) : Res (Builder α × String × Option GoErr) :=
  match qb.queryType with
  | .selectQry => generateSelectQry qb
  | .insertQry => generateInsertQry qb
  | .updateQry => generateUpdateQry qb
  | .deleteQry => generateDeleteQry qb

/-! ### Helper lemmas -/

theorem splitChars_ne_nil (sep : Char) (l : List Char) : splitChars sep l ≠ [] := by
  cases l with
  | nil => simp [splitChars]
  | cons c rest => simp only [splitChars]; split <;> simp

theorem splitChars_length (sep : Char) (l : List Char) :
    (splitChars sep l).length = l.count sep + 1 := by
  induction l with
  | nil => simp [splitChars]
  | cons c rest ih =>
    have hne : (splitChars sep rest).length ≠ 0 := by
      simpa [List.length_eq_zero] using splitChars_ne_nil sep rest
    by_cases hc : c = sep
    · simp [splitChars, hc, List.count_cons, ih]
    · simp only [splitChars, if_neg hc, List.length_cons, List.length_tail,
        List.count_cons, ih]
      have hcb : (c == sep) = false := by simpa using hc
      simp [hcb]

theorem stringsSplit_length (sep : Char) (s : String) :
    (stringsSplit sep s).length = s.toList.count sep + 1 := by
  simp [stringsSplit, splitChars_length]

theorem selectQry_error_empty (qb b : Builder α) (s : String) (e : GoErr)
    (h : generateSelectQry qb = .ok (b, s, some e)) : s = "" := by
  unfold generateSelectQry at h
  repeat' split at h
  all_goals simp_all

theorem insertQry_error_empty (qb b : Builder α) (s : String) (e : GoErr)
    (h : generateInsertQry qb = .ok (b, s, some e)) : s = "" := by
  unfold generateInsertQry at h
  repeat' split at h
  all_goals simp_all

theorem updateQry_error_empty (qb b : Builder α) (s : String) (e : GoErr)
    (h : generateUpdateQry qb = .ok (b, s, some e)) : s = "" := by
  unfold generateUpdateQry at h
  repeat' split at h
  all_goals simp_all

theorem deleteQry_error_empty (qb b : Builder α) (s : String) (e : GoErr)
    (h : generateDeleteQry qb = .ok (b, s, some e)) : s = "" := by
  unfold generateDeleteQry at h
  repeat' split at h
  all_goals simp_all

theorem critBody_of_empty_IN (qb : Builder α) (c : Criterion α)
    (hop : c.operator = "IN") (hv : c.values = []) :
    critBody qb c = .panicked "strings: negative Repeat count" := by
  simp [critBody, hop, hv, stringsRepeat]

theorem critBody_ok (qb : Builder α) (c : Criterion α)
    (h : ¬(c.operator = "IN" ∧ c.values = [])) :
    ∃ qb2 s, critBody qb c = .ok (qb2, s) := by
  unfold critBody
  by_cases h1 : c.operator = "LIKE"
  · simp [h1]
  by_cases h2 : c.operator = "BETWEEN"
  · simp [h1, h2]
  by_cases h3 : c.operator = "IN"
  · have hv : c.values ≠ [] := fun hv => h ⟨h3, hv⟩
    have hlen : c.values.length ≠ 0 := by simpa [List.length_eq_zero] using hv
    simp only [h1, h2, h3, if_false, if_true, stringsRepeat,
      if_neg (by omega : ¬((c.values.length : Int) - 1 < 0))]
    simp
  · simp [h1, h2, h3]

theorem whereLoop_eq_chain :
    ∀ (crits : List (Criterion α)) (qb : Builder α) (ci total : Nat) (qry : String),
      1 ≤ ci → ci + crits.length ≤ total →
      (∀ c ∈ crits, operatorIsValid c.operator = true) →
      whereLoop qb crits ci total qry =
        (match whereTailChain qb crits with
         | .panicked m => .panicked m
         | .ok (qb2, st) => .ok (qb2, qry ++ st, none))
  | [], qb, ci, total, qry, _, _, _ => by
    simp [whereLoop, whereTailChain, String.append_empty]
  | c :: rest, qb, ci, total, qry, hci, htot, hval => by
    have hlt : ci < total := by
      simp only [List.length_cons] at htot
      omega
    have hne0 : ¬(ci = 0 ∧ c.or = true) := fun hand => by omega
    have hvc : operatorIsValid c.operator = true := hval c (List.mem_cons_self c rest)
    simp only [whereLoop, if_neg hne0, if_pos (show ci ≠ 0 ∧ ci < total from ⟨by omega, hlt⟩),
      hvc, Bool.not_true, Bool.false_eq_true, if_false]
    cases hcb : critBody qb c with
    | panicked m => simp [whereTailChain, hcb]
    | ok p =>
      obtain ⟨qb1, s⟩ := p
      dsimp only
      rw [whereLoop_eq_chain rest qb1 (ci + 1) total _ (by omega)
        (by simp only [List.length_cons] at htot; omega)
        (fun c2 hc2 => hval c2 (List.mem_cons_of_mem _ hc2))]
      simp only [whereTailChain, hcb]
      cases hwt : whereTailChain qb1 rest with
      | panicked m => simp
      | ok p2 =>
        obtain ⟨qb2, st⟩ := p2
        simp [String.append_assoc]

theorem whereLoop_panic_of_empty_IN :
    ∀ (crits : List (Criterion α)) (qb : Builder α) (ci total : Nat) (qry : String),
      1 ≤ ci →
      (∀ c ∈ crits, operatorIsValid c.operator = true) →
      (∃ c ∈ crits, c.operator = "IN" ∧ c.values = []) →
      whereLoop qb crits ci total qry = .panicked "strings: negative Repeat count"
  | [], _, _, _, _, _, _, hex => by simp at hex
  | c :: rest, qb, ci, total, qry, hci, hval, hex => by
    have hne0 : ¬(ci = 0 ∧ c.or = true) := fun hand => by omega
    have hvc : operatorIsValid c.operator = true := hval c (List.mem_cons_self c rest)
    simp only [whereLoop, if_neg hne0, hvc, Bool.not_true, Bool.false_eq_true, if_false]
    by_cases hin : c.operator = "IN" ∧ c.values = []
    · rw [critBody_of_empty_IN qb c hin.1 hin.2]
    · obtain ⟨qb1, s, hcb⟩ := critBody_ok qb c hin
      rw [hcb]
      dsimp only
      exact whereLoop_panic_of_empty_IN rest qb1 (ci + 1) total _ (by omega)
        (fun c2 hc2 => hval c2 (List.mem_cons_of_mem _ hc2))
        (by
          rcases hex with ⟨c2, hc2, hprop⟩
          rcases List.mem_cons.mp hc2 with heq | hmem
          · rw [heq] at hprop
            exact absurd hprop hin
          · exact ⟨c2, hmem, hprop⟩)

theorem generateWhereClause_panic_of_empty_IN (qb : Builder α) (c : Criterion α)
    (rest : List (Criterion α)) (h : qb.criteria = c :: rest) (hor : c.or = false)
    (hval : ∀ cr ∈ qb.criteria, operatorIsValid cr.operator = true)
    (hex : ∃ cr ∈ qb.criteria, cr.operator = "IN" ∧ cr.values = []) :
    generateWhereClause qb = .panicked "strings: negative Repeat count" := by
  rw [h] at hval hex
  have hvc : operatorIsValid c.operator = true := hval c (List.mem_cons_self c rest)
  unfold generateWhereClause
  rw [h, if_neg (by simp)]
  simp only [whereLoop, hor, Bool.false_eq_true, and_false, if_false, hvc, Bool.not_true]
  by_cases hin : c.operator = "IN" ∧ c.values = []
  · rw [critBody_of_empty_IN qb c hin.1 hin.2]
  · obtain ⟨qb1, s, hcb⟩ := critBody_ok qb c hin
    rw [hcb]
    dsimp only
    exact whereLoop_panic_of_empty_IN rest qb1 1 (c :: rest).length _ (by omega)
      (fun c2 hc2 => hval c2 (List.mem_cons_of_mem _ hc2))
      (by
        rcases hex with ⟨c2, hc2, hprop⟩
        rcases List.mem_cons.mp hc2 with heq | hmem
        · rw [heq] at hprop
          exact absurd hprop hin
        · exact ⟨c2, hmem, hprop⟩)

/-! ### Claim theorems -/

/-- C5: for every Builder and every statement kind, whenever `GenerateQuery`
returns a non-nil error it returns the empty string as the SQL text; the
first failing clause aborts the whole operation and no partial SQL text is
ever returned alongside an error. -/
theorem c5_error_yields_empty_sql (qb b : Builder α) (s : String) (e : GoErr)
    (h : GenerateQuery qb = .ok (b, s, some e)) : s = "" := by
  unfold GenerateQuery at h
  split at h
  · exact selectQry_error_empty _ _ _ _ h
  · exact insertQry_error_empty _ _ _ _ h
  · exact updateQry_error_empty _ _ _ _ h
  · exact deleteQry_error_empty _ _ _ _ h

/-- Witness for C5: a SELECT builder whose one column has no matching value
fails with the arity error and the empty SQL string. -/
theorem c5_witness : ("" : String) = "" :=
  @c5_error_yields_empty_sql Nat (Select (NewSelect "t") ["a"])
    (Select (NewSelect "t") ["a"]) "" (newBadColumnsValuesComboError 1 0) (by decide)

/-- C6: the RETURNING clause is empty (with a nil error, no dialect or
arity check observed) when `returningColumns` is empty; with returning
columns it fails with the Unsupported-Returning error on every
non-Postgres/Oracle dialect regardless of arity; and on Postgres/Oracle with
matching arity it emits ` RETURNING <col1>,<col2>,...`. -/
theorem c6_returning_clause (qb : Builder α) :
    (qb.returningColumns = [] → generateReturningClause qb = ("", none)) ∧
    (qb.returningColumns ≠ [] → qb.db ≠ .postgres → qb.db ≠ .oracle →
      generateReturningClause qb = ("", some .dbEngineDoesNotSupportReturning)) ∧
    (qb.returningColumns ≠ [] → (qb.db = .postgres ∨ qb.db = .oracle) →
      qb.returningColumns.length = qb.returnValues.length →
      generateReturningClause qb = (" RETURNING " ++ commaJoin qb.returningColumns, none)) := by
  refine ⟨fun h => ?_, fun h hp ho => ?_, fun h hdb hlen => ?_⟩
  · simp [generateReturningClause, h]
  · have hne : ¬ qb.returningColumns.length = 0 := by
      simpa [List.length_eq_zero] using h
    simp [generateReturningClause, hne, hp, ho]
  · have hne : ¬ qb.returningColumns.length = 0 := by
      simpa [List.length_eq_zero] using h
    have hd : ¬(qb.db ≠ .postgres ∧ qb.db ≠ .oracle) := by
      rcases hdb with hdb | hdb <;> simp [hdb]
    simp only [generateReturningClause, if_neg hne, if_neg hd,
      if_neg (show ¬ qb.returningColumns.length ≠ qb.returnValues.length from by omega)]

/-- Witness for C6: the three clause shapes at concrete builders (empty
returning list; MySQL with a returning column; Postgres with matching
arity). -/
theorem c6_witness :
    generateReturningClause (NewInsert "t" : Builder Nat) = ("", none) ∧
    generateReturningClause ({ db := .mysql, returningColumns := ["t.id"] } : Builder Nat) =
      ("", some .dbEngineDoesNotSupportReturning) ∧
    generateReturningClause
        ({ db := .postgres, returningColumns := ["t.id"], returnValues := [5] } : Builder Nat) =
      (" RETURNING t.id", none) := by
  refine ⟨(c6_returning_clause _).1 rfl,
    (c6_returning_clause _).2.1 (by decide) (by decide) (by decide), ?_⟩
  rw [(c6_returning_clause _).2.2 (by decide) (Or.inl rfl) (by decide)]
  decide

/-- C7: whenever the column count differs from the value count in the
SELECT projection clause, the INSERT mutation clause or the UPDATE mutation
clause, generation returns the empty string together with the Column-Value
Arity error carrying exactly the two counts. -/
theorem c7_arity_error_carries_counts (qb : Builder α)
    (hk : qb.queryType = .selectQry ∨ qb.queryType = .insertQry ∨ qb.queryType = .updateQry)
    (hne : qb.columns.length ≠ qb.values.length) :
    GenerateQuery qb =
      .ok (qb, "", some (newBadColumnsValuesComboError qb.columns.length qb.values.length)) := by
  rcases hk with hk | hk | hk
  · simp only [GenerateQuery, hk, generateSelectQry, generateSelectClause, if_pos hne]
  · simp only [GenerateQuery, hk, generateInsertQry, generateInsertClause, if_pos hne]
  · simp only [GenerateQuery, hk, generateUpdateQry, generateUpdateClause, if_pos hne]

/-- Witness for C7: an UPDATE builder with two columns and one value fails
with the arity error carrying 2 and 1. -/
theorem c7_witness :
    GenerateQuery (To (Set (NewUpdate "t") ["a", "b"]) ([1] : List Nat)) =
      .ok (To (Set (NewUpdate "t") ["a", "b"]) ([1] : List Nat), "",
        some (newBadColumnsValuesComboError 2 1)) :=
  c7_arity_error_carries_counts _ (Or.inr (Or.inr rfl)) (by decide)

/-- C10: a Builder made by the SELECT constructor with empty columns,
values, joins, criteria and order specs and limit 0 generates successfully,
producing exactly `SELECT  FROM <table>` (double space, no column list):
the empty projection passes the arity check instead of being rejected. -/
theorem c10_empty_select (qb : Builder α)
    (hk : qb.queryType = .selectQry) (hc : qb.columns = []) (hv : qb.values = [])
    (hj : qb.joinTables = []) (hcr : qb.criteria = []) (ho : qb.orderBy = [])
    (hl : qb.limit = 0) :
    GenerateQuery qb = .ok (qb, "SELECT  FROM " ++ qb.table, none) := by
  have h1 : generateSelectClause qb = ("SELECT ", none) := by
    simp [generateSelectClause, hc, hv, commaJoin]
  have h2 : generateFromAndJoinClause qb = " FROM " ++ qb.table := by
    simp [generateFromAndJoinClause, hj, joinsText]
  have h3 : generateWhereClause qb = .ok (qb, "", none) := by
    simp [generateWhereClause, hcr]
  have h4 : generateOrderByClause qb = "" := by simp [generateOrderByClause, ho]
  have h5 : generateLimitClause qb = "" := by simp [generateLimitClause, hl]
  have hs : ("SELECT " : String) ++ " FROM " = "SELECT  FROM " := by decide
  simp only [GenerateQuery, hk, generateSelectQry, h1, h2, h3, h4, h5,
    String.append_empty, ← String.append_assoc, hs]

/-- Witness for C10: the just-constructed `NewSelect "table1"` builder. -/
theorem c10_witness :
    GenerateQuery (NewSelect "table1" : Builder Nat) =
      .ok (NewSelect "table1", "SELECT  FROM table1", none) := by
  rw [c10_empty_select (NewSelect "table1" : Builder Nat) rfl rfl rfl rfl rfl rfl rfl]
  decide

/-- C8: the filter-operator whitelist is exhaustive and exact —
`operatorIsValid` accepts exactly `=, >, <, >=, <=, <>, IN, BETWEEN, LIKE`
(the operator stored by `Where`/`OrWhere` after uppercase normalization) —
and a criterion with any other operator makes WHERE generation fail with the
Invalid-Operator error carrying the offending operator string. -/
theorem c8_operator_whitelist :
    (∀ op : String, operatorIsValid op = true ↔
      op = "=" ∨ op = ">" ∨ op = "<" ∨ op = ">=" ∨ op = "<=" ∨ op = "<>" ∨
        op = "IN" ∨ op = "BETWEEN" ∨ op = "LIKE") ∧
    (∀ (qb : Builder α) (c : Criterion α) (rest : List (Criterion α)),
      qb.criteria = c :: rest → c.or = false → operatorIsValid c.operator = false →
      generateWhereClause qb = .ok (qb, "", some (newInvalidOperatorError c.operator))) := by
  constructor
  · intro op
    have hsplit : stringsSplit '/' validOperators =
        ["=", ">", "<", ">=", "<=", "<>", "IN", "BETWEEN", "LIKE"] := by decide
    unfold operatorIsValid
    rw [hsplit]
    simp [List.any_cons, List.any_nil]
  · intro qb c rest h hor hop
    unfold generateWhereClause
    rw [h, if_neg (by simp)]
    simp [whereLoop, hor, hop]

/-- Witness for C8: `<>` is accepted, `!=` is rejected, and a criterion
stored through `Where` with operator `ins` (normalized to `INS`) makes WHERE
generation fail with the Invalid-Operator error carrying `INS`. -/
theorem c8_witness :
    operatorIsValid "<>" = true ∧ operatorIsValid "!=" = false ∧
    generateWhereClause (Where (NewSelect "t" : Builder Nat) "t.c" "ins" [1, 2, 3]) =
      .ok (Where (NewSelect "t" : Builder Nat) "t.c" "ins" [1, 2, 3], "",
        some (newInvalidOperatorError "INS")) := by
  have h := @c8_operator_whitelist Nat
  refine ⟨(h.1 "<>").mpr (by decide), ?_, ?_⟩
  · have hne : operatorIsValid "!=" ≠ true := fun habs =>
      absurd ((h.1 "!=").mp habs) (by decide)
    simpa using hne
  · exact h.2 _ ⟨"t.c", "INS", [1, 2, 3], false⟩ [] (by decide) rfl (by decide)

/-- C9: a first filter criterion with the OR combinator makes WHERE
generation fail with the First-Criterion-Is-Or error and the empty string,
with no clause text produced; with a non-OR first criterion and valid
operators, the clause is ` WHERE ` followed by the first criterion's body
with no combinator, then every later criterion preceded by its ` OR ` or
` AND ` token, as described by `whereTailChain`. -/
theorem c9_first_or_and_combinators :
    (∀ (qb : Builder α) (c : Criterion α) (rest : List (Criterion α)),
      qb.criteria = c :: rest → c.or = true →
      generateWhereClause qb = .ok (qb, "", some .firstCriterionIsOr)) ∧
    (∀ (qb : Builder α) (c : Criterion α) (rest : List (Criterion α)),
      qb.criteria = c :: rest → c.or = false →
      (∀ cr ∈ qb.criteria, operatorIsValid cr.operator = true) →
      generateWhereClause qb =
        (match critBody qb c with
         | .panicked m => .panicked m
         | .ok (qb1, s0) =>
           match whereTailChain qb1 rest with
           | .panicked m => .panicked m
           | .ok (qb2, st) => .ok (qb2, " WHERE " ++ s0 ++ st, none))) := by
  constructor
  · intro qb c rest h hor
    unfold generateWhereClause
    rw [h, if_neg (by simp)]
    simp [whereLoop, hor]
  · intro qb c rest h hor hval
    rw [h] at hval
    have hvc : operatorIsValid c.operator = true := hval c (List.mem_cons_self c rest)
    unfold generateWhereClause
    rw [h, if_neg (by simp)]
    simp only [whereLoop,
      if_neg (show ¬((0 : Nat) = 0 ∧ c.or = true) from fun hand => by
        rw [hor] at hand; exact Bool.false_ne_true hand.2),
      if_neg (show ¬((0 : Nat) ≠ 0 ∧ 0 < (c :: rest).length) from fun hand => hand.1 rfl),
      if_neg (show ¬((!operatorIsValid c.operator) = true) from by simp [hvc])]
    cases hcb : critBody qb c with
    | panicked m => simp [hor]
    | ok p =>
      obtain ⟨qb1, s0⟩ := p
      dsimp only
      rw [whereLoop_eq_chain rest qb1 1 (c :: rest).length _ (by omega)
        (by simp only [List.length_cons]; omega)
        (fun c2 hc2 => hval c2 (List.mem_cons_of_mem _ hc2))]
      cases hwt : whereTailChain qb1 rest with
      | panicked m => simp [hor]
      | ok p2 =>
        obtain ⟨qb2, st⟩ := p2
        simp [hor]

/-- Witness for C9: a two-criterion builder whose second criterion has the
OR combinator renders ` WHERE a=? OR b=?`, and a builder whose first
criterion has the OR combinator fails with the First-Criterion-Is-Or
error. -/
theorem c9_witness :
    generateWhereClause ({ table := "t", criteria :=
        [⟨"a", "=", [1], false⟩, ⟨"b", "=", [2], true⟩] } : Builder Nat) =
      .ok ({ table := "t", placeholderCount := 2, criteria :=
        [⟨"a", "=", [1], false⟩, ⟨"b", "=", [2], true⟩] },
        " WHERE a=? OR b=?", none) ∧
    generateWhereClause ({ table := "t", criteria := [⟨"a", "=", [1], true⟩] } : Builder Nat) =
      .ok ({ table := "t", criteria := [⟨"a", "=", [1], true⟩] }, "",
        some .firstCriterionIsOr) := by
  have h := @c9_first_or_and_combinators Nat
  constructor
  · rw [h.2 _ ⟨"a", "=", [1], false⟩ [⟨"b", "=", [2], true⟩] rfl rfl (by decide)]
    decide
  · exact h.1 _ ⟨"a", "=", [1], true⟩ [] rfl rfl

/-- C1 (code bug): for a Postgres builder, an `IN` criterion with three
values renders ` WHERE t1.c IN ($1,$2,$2)` — the repeated-argument token is
allocated once and repeated, so the three tokens are not three distinct
consecutive numbers and the shared counter advances by 2, not 3. -/
theorem c1_postgres_in_three_values :
    generateWhereClause
        ({ db := .postgres, table := "t1",
           criteria := [⟨"t1.c", "IN", [1, 2, 3], false⟩] } : Builder Nat) =
      .ok ({ db := .postgres, table := "t1", placeholderCount := 2,
             criteria := [⟨"t1.c", "IN", [1, 2, 3], false⟩] },
        " WHERE t1.c IN ($1,$2,$2)", none) := by
  decide

/-- C2 (code bug): a full Postgres generation over a single three-value `IN`
criterion produces `SELECT  FROM t2 WHERE t2.c IN ($1,$2,$2)` with a final
placeholder count of 2 — the three sequential bound values do not receive
the token sequence `$1,$2,$3` and the third value has no placeholder of its
own. -/
theorem c2_postgres_in_sequence :
    GenerateQuery
        ({ db := .postgres, table := "t2",
           criteria := [⟨"t2.c", "IN", [7, 8, 9], false⟩] } : Builder Nat) =
      .ok ({ db := .postgres, table := "t2", placeholderCount := 2,
             criteria := [⟨"t2.c", "IN", [7, 8, 9], false⟩] },
        "SELECT  FROM t2 WHERE t2.c IN ($1,$2,$2)", none) := by
  decide

/-- C3 counterexample: `Select`/`Returning` on the name `a.b.c` (two `.`
separators) do not store it verbatim — they drop it, leaving the column
sequences empty. -/
theorem c3_counterexample :
    (Select (NewSelect "t1" : Builder Nat) ["a.b.c"]).columns = [] ∧
    (Select (NewSelect "t1" : Builder Nat) ["a.b.c"]).columns ≠ ["a.b.c"] ∧
    (Returning (NewInsert "t1" : Builder Nat) ["a.b.c"]).returningColumns = [] := by
  decide

/-- C3 (amended): a name containing more than one `.` separator is silently
dropped by `Select` and `Returning` (the builder is unchanged), unlike a
name containing exactly one `.`, which is stored verbatim. -/
theorem c3_multi_dot_dropped :
    (∀ (qb : Builder α) (name : String), 2 ≤ name.toList.count '.' →
      Select qb [name] = qb ∧ Returning qb [name] = qb) ∧
    (∀ (qb : Builder α) (name : String), name.toList.count '.' = 1 →
      Select qb [name] = { qb with columns := qb.columns ++ [name] } ∧
      Returning qb [name] = { qb with returningColumns := qb.returningColumns ++ [name] }) := by
  constructor
  · intro qb name hge
    constructor
    · show selectOne qb name = qb
      simp only [selectOne, stringsSplit_length,
        if_neg (show ¬(name.toList.count '.' + 1 = 1) from by omega),
        if_neg (show ¬(name.toList.count '.' + 1 = 2) from by omega)]
    · show returningOne qb name = qb
      simp only [returningOne, stringsSplit_length,
        if_neg (show ¬(name.toList.count '.' + 1 = 1) from by omega),
        if_neg (show ¬(name.toList.count '.' + 1 = 2) from by omega)]
  · intro qb name h1
    constructor
    · show selectOne qb name = _
      simp only [selectOne, stringsSplit_length, h1,
        if_neg (show ¬(1 + 1 = 1) from by omega),
        if_pos (show 1 + 1 = 2 from by omega), if_true]
    · show returningOne qb name = _
      simp only [returningOne, stringsSplit_length, h1,
        if_neg (show ¬(1 + 1 = 1) from by omega),
        if_pos (show 1 + 1 = 2 from by omega), if_true]

/-- Witness for C3 (amended): the multi-dot name `a.b.c` leaves the builder
unchanged, while the one-dot name `t9.col` is stored verbatim. -/
theorem c3_witness :
    Select (NewSelect "x" : Builder Nat) ["a.b.c"] = NewSelect "x" ∧
    Select (NewSelect "x" : Builder Nat) ["t9.col"] =
      { (NewSelect "x" : Builder Nat) with columns := ["t9.col"] } := by
  have h := @c3_multi_dot_dropped Nat
  refine ⟨(h.1 (NewSelect "x") "a.b.c" (by decide)).1, ?_⟩
  rw [(h.2 (NewSelect "x") "t9.col" (by decide)).1]
  rfl

/-- C4 counterexample: an `IN` criterion with an empty value sequence does
not make generation return a malformed string — it panics, through Go
`strings.Repeat` with a negative count. -/
theorem c4_counterexample :
    GenerateQuery ({ table := "t3", criteria := [⟨"t3.c", "IN", [], false⟩] } : Builder Nat) =
      .panicked "strings: negative Repeat count" := by
  decide

/-- C4 (amended): for every SELECT builder with matching projection arity
whose reachable criteria all carry valid operators and contain an `IN`
criterion with an empty value sequence, generation panics with
`strings: negative Repeat count` instead of returning any string. -/
theorem c4_empty_in_panics (qb : Builder α) (c : Criterion α) (rest : List (Criterion α))
    (hk : qb.queryType = .selectQry) (ha : qb.columns.length = qb.values.length)
    (h : qb.criteria = c :: rest) (hor : c.or = false)
    (hval : ∀ cr ∈ qb.criteria, operatorIsValid cr.operator = true)
    (hex : ∃ cr ∈ qb.criteria, cr.operator = "IN" ∧ cr.values = []) :
    GenerateQuery qb = .panicked "strings: negative Repeat count" := by
  have hw := generateWhereClause_panic_of_empty_IN qb c rest h hor hval hex
  have hs : generateSelectClause qb = ("SELECT " ++ commaJoin qb.columns, none) := by
    unfold generateSelectClause
    rw [if_neg (by omega)]
  simp only [GenerateQuery, hk, generateSelectQry, hs, hw]

/-- Witness for C4 (amended): a two-criterion builder whose second criterion
is an empty `IN` panics during generation. -/
theorem c4_witness :
    GenerateQuery
        ({ table := "t4",
           criteria := [⟨"t4.a", "=", [5], false⟩, ⟨"t4.b", "IN", [], false⟩] } : Builder Nat) =
      .panicked "strings: negative Repeat count" :=
  c4_empty_in_panics _ ⟨"t4.a", "=", [5], false⟩ [⟨"t4.b", "IN", [], false⟩]
    rfl rfl rfl rfl (by decide) ⟨⟨"t4.b", "IN", [], false⟩, by decide, rfl, rfl⟩

end SqlQueryBob

